import Mathlib

/-!
# Proof-graph visualisation data: structural invariants

A shallow embedding of the two data modules
`RESEARCHER_BUNDLE/artifacts/visuals/tactic_flow_data.js` and
`RESEARCHER_BUNDLE/artifacts/visuals/wolfram_proofs_data.js`.

Both modules are object literals.  Object literals become structures, array
literals become lists in declaration order, JavaScript strings stay strings
(so that enumeration membership is a statement about the data and not a
consequence of typing), and JavaScript integer literals become `Int`.
String-keyed lookup objects become association lists in declaration order.
-/

namespace ProofVisuals

/-! ## Data model -/

/-- A node literal `{ id, type, label, depth }` of a tactic-flow graph.
The source field `type` is rendered `type_` since `type` is not available as
a field name. -/
structure ProofStepNode where
  id : String
  type_ : String
  label : String
  depth : Int
deriving DecidableEq, Repr

/-- An edge literal `{ from, to }`; the source fields are rendered
`from_` and `to_`. -/
structure ProofStepEdge where
  from_ : String
  to_ : String
deriving DecidableEq, Repr

/-- An element of the `theorems` array. -/
structure TheoremEntry where
  name : String
  file : String
  description : String
  statement : String
  nodes : List ProofStepNode
  edges : List ProofStepEdge
deriving DecidableEq, Repr

/-- The object bound to `tacticFlowData`. -/
structure TacticFlowCatalog where
  theorems : List TheoremEntry
deriving DecidableEq, Repr

/-- The literal `pos: { x, y, z }`.  Every coordinate in the source is a
decimal literal with at most two fractional digits; it is stored here as the
number of hundredths. -/
structure Pos where
  x : Nat
  y : Nat
  z : Nat
deriving DecidableEq, Repr

/-- An element of the `items` array. -/
structure DependencyItem where
  name : String
  kind : String
  family : String
  pos : Pos
deriving DecidableEq, Repr

/-- The object bound to `wolframProofsData`; an edge literal `[s, d]` is the
pair `(s, d)`. -/
structure DependencyEmbedding where
  items : List DependencyItem
  edges : List (Int × Int)
deriving DecidableEq, Repr

/-! ## `tactic_flow_data.js` -/

/-- The entry `theorems[0]`. -/
def copyAll_impossible_entry : TheoremEntry where
  name := "copyAll_impossible"
  file := "HeytingLean/Crypto/QKD/BB84/Constructors.lean"
  description := "Proves that cloning all BB84 qubits is impossible (no-cloning theorem)"
  statement := "theorem copyAll_impossible : bb84TaskCT.impossible copyAll"
  nodes := [
    { id := "goal_0", type_ := "goal", label := "⊢ bb84TaskCT.impossible copyAll", depth := 0 },
    { id := "tactic_1", type_ := "tactic", label := "intro ⟨c, hc⟩", depth := 1 },
    { id := "hyp_2", type_ := "hypothesis", label := "c : BB84Ctor", depth := 2 },
    { id := "hyp_3", type_ := "hypothesis", label := "hc : BB84Implements c copyAll", depth := 2 },
    { id := "goal_4", type_ := "goal", label := "⊢ False", depth := 2 },
    { id := "tactic_5", type_ := "tactic", label := "exact not_implements_copyAll c hc", depth := 3 },
    { id := "qed_6", type_ := "qed", label := "QED", depth := 4 } ]
  edges := [
    { from_ := "goal_0", to_ := "tactic_1" },
    { from_ := "tactic_1", to_ := "hyp_2" },
    { from_ := "tactic_1", to_ := "hyp_3" },
    { from_ := "tactic_1", to_ := "goal_4" },
    { from_ := "goal_4", to_ := "tactic_5" },
    { from_ := "tactic_5", to_ := "qed_6" } ]

/-- The entry `theorems[1]`. -/
def not_implements_copyAll_entry : TheoremEntry where
  name := "not_implements_copyAll"
  file := "HeytingLean/Crypto/QKD/BB84/Constructors.lean"
  description := "No BB84 constructor can implement copyAll task"
  statement := "theorem not_implements_copyAll (c : BB84Ctor) : ¬ BB84Implements c copyAll"
  nodes := [
    { id := "goal_0", type_ := "goal", label := "⊢ ¬ BB84Implements c copyAll", depth := 0 },
    { id := "tactic_1", type_ := "tactic", label := "intro h", depth := 1 },
    { id := "hyp_2", type_ := "hypothesis", label := "h : BB84Implements c copyAll", depth := 2 },
    { id := "goal_3", type_ := "goal", label := "⊢ False", depth := 2 },
    { id := "tactic_4", type_ := "tactic", label := "have hAllowed : AllowedArc (attrAll, attrAll)", depth := 3 },
    { id := "subgoal_5", type_ := "goal", label := "⊢ AllowedArc (attrAll, attrAll)", depth := 4 },
    { id := "tactic_6", type_ := "tactic", label := "apply bb84_implements_allowed_arcs h", depth := 5 },
    { id := "subgoal_7", type_ := "goal", label := "⊢ (attrAll, attrAll) ∈ copyAll.arcs", depth := 6 },
    { id := "tactic_8", type_ := "simp_trace", label := "simp [copyAll]", depth := 7 },
    { id := "hyp_9", type_ := "hypothesis", label := "hAllowed : AllowedArc (attrAll, attrAll)", depth := 3 },
    { id := "tactic_10", type_ := "tactic", label := "exact copyAll_arc_not_allowed hAllowed", depth := 4 },
    { id := "qed_11", type_ := "qed", label := "QED", depth := 5 } ]
  edges := [
    { from_ := "goal_0", to_ := "tactic_1" },
    { from_ := "tactic_1", to_ := "hyp_2" },
    { from_ := "tactic_1", to_ := "goal_3" },
    { from_ := "goal_3", to_ := "tactic_4" },
    { from_ := "tactic_4", to_ := "subgoal_5" },
    { from_ := "subgoal_5", to_ := "tactic_6" },
    { from_ := "tactic_6", to_ := "subgoal_7" },
    { from_ := "subgoal_7", to_ := "tactic_8" },
    { from_ := "tactic_4", to_ := "hyp_9" },
    { from_ := "hyp_9", to_ := "tactic_10" },
    { from_ := "tactic_10", to_ := "qed_11" } ]

/-- The entry `theorems[2]` (term-mode proof). -/
def copyZ_possible_entry : TheoremEntry where
  name := "copyZ_possible"
  file := "HeytingLean/Crypto/QKD/BB84/Constructors.lean"
  description := "Copying Z-basis qubits is possible (term-mode proof)"
  statement := "theorem copyZ_possible : bb84TaskCT.possible copyZ"
  nodes := [
    { id := "term_0", type_ := "app", label := "⟨BB84Ctor.copyZ, BB84Implements.copyZ⟩", depth := 0 },
    { id := "const_1", type_ := "const", label := "BB84Ctor.copyZ", depth := 1 },
    { id := "const_2", type_ := "const", label := "BB84Implements.copyZ", depth := 1 },
    { id := "qed_3", type_ := "qed", label := "QED (term-mode)", depth := 2 } ]
  edges := [
    { from_ := "term_0", to_ := "const_1" },
    { from_ := "term_0", to_ := "const_2" },
    { from_ := "const_1", to_ := "qed_3" },
    { from_ := "const_2", to_ := "qed_3" } ]

/-- The entry `theorems[3]` (term-mode proof). -/
def copyX_possible_entry : TheoremEntry where
  name := "copyX_possible"
  file := "HeytingLean/Crypto/QKD/BB84/Constructors.lean"
  description := "Copying X-basis qubits is possible (term-mode proof)"
  statement := "theorem copyX_possible : bb84TaskCT.possible copyX"
  nodes := [
    { id := "term_0", type_ := "app", label := "⟨BB84Ctor.copyX, BB84Implements.copyX⟩", depth := 0 },
    { id := "const_1", type_ := "const", label := "BB84Ctor.copyX", depth := 1 },
    { id := "const_2", type_ := "const", label := "BB84Implements.copyX", depth := 1 },
    { id := "qed_3", type_ := "qed", label := "QED (term-mode)", depth := 2 } ]
  edges := [
    { from_ := "term_0", to_ := "const_1" },
    { from_ := "term_0", to_ := "const_2" },
    { from_ := "const_1", to_ := "qed_3" },
    { from_ := "const_2", to_ := "qed_3" } ]

/-- The entry `theorems[4]`. -/
def bb84_implements_allowed_arcs_entry : TheoremEntry where
  name := "bb84_implements_allowed_arcs"
  file := "HeytingLean/Crypto/QKD/BB84/Constructors.lean"
  description := "Implementation implies allowed arcs"
  statement := "theorem bb84_implements_allowed_arcs : BB84Implements c t → ∀ a ∈ t.arcs, AllowedArc a"
  nodes := [
    { id := "goal_0", type_ := "goal", label := "⊢ ∀ a ∈ t.arcs, AllowedArc a", depth := 0 },
    { id := "tactic_1", type_ := "tactic", label := "induction c (on BB84Ctor)", depth := 1 },
    { id := "case_2", type_ := "goal", label := "case copyZ", depth := 2 },
    { id := "case_3", type_ := "goal", label := "case copyX", depth := 2 },
    { id := "case_4", type_ := "goal", label := "case seq", depth := 2 },
    { id := "case_5", type_ := "goal", label := "case par", depth := 2 },
    { id := "tactic_6", type_ := "tactic", label := "intro a ha; simp; exact AllowedArc.zz", depth := 3 },
    { id := "tactic_7", type_ := "tactic", label := "intro a ha; simp; exact AllowedArc.xx", depth := 3 },
    { id := "tactic_8", type_ := "tactic", label := "apply IH recursively", depth := 3 },
    { id := "tactic_9", type_ := "tactic", label := "apply IH recursively", depth := 3 },
    { id := "qed_10", type_ := "qed", label := "QED", depth := 4 } ]
  edges := [
    { from_ := "goal_0", to_ := "tactic_1" },
    { from_ := "tactic_1", to_ := "case_2" },
    { from_ := "tactic_1", to_ := "case_3" },
    { from_ := "tactic_1", to_ := "case_4" },
    { from_ := "tactic_1", to_ := "case_5" },
    { from_ := "case_2", to_ := "tactic_6" },
    { from_ := "case_3", to_ := "tactic_7" },
    { from_ := "case_4", to_ := "tactic_8" },
    { from_ := "case_5", to_ := "tactic_9" },
    { from_ := "tactic_6", to_ := "qed_10" },
    { from_ := "tactic_7", to_ := "qed_10" },
    { from_ := "tactic_8", to_ := "qed_10" },
    { from_ := "tactic_9", to_ := "qed_10" } ]

/-- The constant `tacticFlowData`. -/
def tacticFlowData : TacticFlowCatalog where
  theorems := [
    copyAll_impossible_entry,
    not_implements_copyAll_entry,
    copyZ_possible_entry,
    copyX_possible_entry,
    bb84_implements_allowed_arcs_entry ]

/-- The constant `tacticFlowColors`: node type to hex colour. -/
def tacticFlowColors : List (String × String) := [
  ("goal", "#3b82f6"),
  ("hypothesis", "#10b981"),
  ("tactic", "#f59e0b"),
  ("simp_trace", "#8b5cf6"),
  ("calc_step", "#06b6d4"),
  ("qed", "#22c55e"),
  ("app", "#3b82f6"),
  ("const", "#f59e0b") ]

/-! ## `wolfram_proofs_data.js` -/

/-- The constant `wolframProofsData`. -/
def wolframProofsData : DependencyEmbedding where
  items := [
    { name := "copyAll_impossible", kind := "theorem", family := "QKD/BB84", pos := { x := 50, y := 20, z := 50 } },
    { name := "False", kind := "type", family := "Core", pos := { x := 15, y := 40, z := 30 } },
    { name := "TaskCT.Ctor", kind := "structure", family := "Constructor", pos := { x := 25, y := 50, z := 40 } },
    { name := "TaskCT.implements", kind := "def", family := "Constructor", pos := { x := 30, y := 60, z := 35 } },
    { name := "TaskCT.possible", kind := "def", family := "Constructor", pos := { x := 35, y := 55, z := 45 } },
    { name := "BB84Substrate", kind := "structure", family := "QKD/BB84", pos := { x := 70, y := 45, z := 50 } },
    { name := "bb84TaskCT", kind := "def", family := "QKD/BB84", pos := { x := 75, y := 55, z := 55 } },
    { name := "copyAll", kind := "def", family := "QKD/BB84", pos := { x := 80, y := 50, z := 60 } },
    { name := "match_1_1", kind := "aux", family := "QKD/BB84", pos := { x := 55, y := 75, z := 40 } },
    { name := "not_implements_copyAll", kind := "lemma", family := "QKD/BB84", pos := { x := 60, y := 85, z := 50 } } ]
  edges := [
    (1, 0), (2, 0), (3, 0), (4, 0), (5, 0), (6, 0), (7, 0), (8, 0), (9, 0) ]

/-- The constant `familyColors`: family to hex colour. -/
def familyColors : List (String × String) := [
  ("Core", "#ef4444"),
  ("Constructor", "#8b5cf6"),
  ("QKD/BB84", "#f59e0b") ]

/-- The constant `kindShapes`: kind to shape name. -/
def kindShapes : List (String × String) := [
  ("theorem", "hexagon"),
  ("lemma", "diamond"),
  ("def", "rect"),
  ("structure", "ellipse"),
  ("type", "circle"),
  ("aux", "triangle") ]

/-! ## Derived notions -/

/-- The own-property test `key in table` for a lookup object. -/
def hasKey (table : List (String × String)) (key : String) : Bool :=
  (table.map Prod.fst).contains key

/-- The value of `table[key]`, `none` standing for `undefined`. -/
def lookupKey (table : List (String × String)) (key : String) : Option String :=
  table.lookup key

/-- The ids of the nodes of an entry, in declaration order. -/
def nodeIds (t : TheoremEntry) : List String :=
  t.nodes.map ProofStepNode.id

/-- One step along a declared edge of `t`. -/
def EdgeRel (t : TheoremEntry) (a b : String) : Prop :=
  ({ from_ := a, to_ := b } : ProofStepEdge) ∈ t.edges

instance (t : TheoremEntry) (a b : String) : Decidable (EdgeRel t a b) := by
  unfold EdgeRel; infer_instance

/-- The nodes of `t` that are the target of no edge of `t`. -/
def roots (t : TheoremEntry) : List ProofStepNode :=
  t.nodes.filter fun n => !(t.edges.map ProofStepEdge.to_).contains n.id

/-- The depth recorded for the first node of `t` carrying the id `i`. -/
def depthOf (t : TheoremEntry) (i : String) : Option Int :=
  (t.nodes.find? fun n => n.id == i).map ProofStepNode.depth

/-- The position of the first node of `t` carrying the id `i`. -/
def indexOfId (t : TheoremEntry) (i : String) : Nat :=
  (nodeIds t).indexOf i

/-- The value of `items[i]` for an integer index, `none` standing for
`undefined` (a negative or too large index). -/
def itemAt (d : DependencyEmbedding) (i : Int) : Option DependencyItem :=
  if 0 ≤ i then d.items[i.toNat]? else none

/-! ## Helper lemmas -/

/-- A relation whose every step strictly raises a natural-number rank raises
the rank along every non-empty chain of steps. -/
theorem rank_lt_of_transGen {α : Type} (r : α → α → Prop) (f : α → Nat)
    (hstep : ∀ a b, r a b → f a < f b) :
    ∀ a b, Relation.TransGen r a b → f a < f b := by
  intro a b hab
  induction hab with
  | single h => exact hstep _ _ h
  | tail _ h ih => exact lt_trans ih (hstep _ _ h)

/-- Every declared edge of every entry leads from a node to a node declared
strictly later in the `nodes` array. -/
theorem edges_point_forward :
    ∀ t ∈ tacticFlowData.theorems, ∀ e ∈ t.edges,
      indexOfId t e.from_ < indexOfId t e.to_ := by
  decide

/-- Membership in `roots`: a declared node that no edge points to. -/
theorem mem_roots_iff (t : TheoremEntry) (n : ProofStepNode) :
    n ∈ roots t ↔ n ∈ t.nodes ∧ ∀ e ∈ t.edges, e.to_ ≠ n.id := by
  simp only [roots, List.mem_filter, Bool.not_eq_true_eq_eq_false, Bool.not_eq_true,
    Bool.not_eq_eq_eq_not, Bool.not_true]
  constructor
  · rintro ⟨hn, hc⟩
    refine ⟨hn, fun e he heq => ?_⟩
    have : (t.edges.map ProofStepEdge.to_).contains n.id = true := by
      rw [List.contains_iff_exists_mem_beq]
      exact ⟨e.to_, List.mem_map_of_mem _ he, by simp [heq]⟩
    rw [this] at hc
    exact absurd hc (by decide)
  · rintro ⟨hn, hc⟩
    refine ⟨hn, ?_⟩
    by_contra hne
    have hc2 : (t.edges.map ProofStepEdge.to_).contains n.id = true := by
      cases h : (t.edges.map ProofStepEdge.to_).contains n.id
      · exact absurd h hne
      · rfl
    rw [List.contains_iff_exists_mem_beq] at hc2
    obtain ⟨x, hx, hxe⟩ := hc2
    obtain ⟨e, he, rfl⟩ := List.mem_map.1 hx
    exact hc e he (by simpa using hxe : n.id = e.to_).symm

/-! ## Claims -/

/-- C1: in every entry of `tacticFlowData.theorems`, both endpoints of every
edge are the id of some node of the same entry. -/
theorem edge_endpoints_declared :
    ∀ t ∈ tacticFlowData.theorems, ∀ e ∈ t.edges,
      (∃ n ∈ t.nodes, n.id = e.from_) ∧ (∃ n ∈ t.nodes, n.id = e.to_) := by
  decide

/-- Instance of C1 at the first edge of the first entry. -/
theorem edge_endpoints_declared_witness :
    (∃ n ∈ copyAll_impossible_entry.nodes, n.id = "goal_0") ∧
      (∃ n ∈ copyAll_impossible_entry.nodes, n.id = "tactic_1") :=
  edge_endpoints_declared copyAll_impossible_entry (by decide)
    { from_ := "goal_0", to_ := "tactic_1" } (by decide)

/-- C2: within every entry the node ids are pairwise distinct, while an id
such as `goal_0` does occur in more than one entry. -/
theorem node_ids_distinct_per_entry :
    (∀ t ∈ tacticFlowData.theorems, (nodeIds t).Nodup) ∧
      (∃ t ∈ tacticFlowData.theorems, ∃ u ∈ tacticFlowData.theorems,
        t ≠ u ∧ "goal_0" ∈ nodeIds t ∧ "goal_0" ∈ nodeIds u) := by
  refine ⟨by decide, copyAll_impossible_entry, by decide,
    not_implements_copyAll_entry, by decide, by decide, by decide, by decide⟩

/-- C3: in every entry no non-empty chain of edges leads from a node back to
itself. -/
theorem edges_acyclic :
    ∀ t ∈ tacticFlowData.theorems, ∀ a : String,
      ¬ Relation.TransGen (EdgeRel t) a a := by
  intro t ht a hcyc
  have hstep : ∀ x y, EdgeRel t x y → indexOfId t x < indexOfId t y :=
    fun x y hxy => edges_point_forward t ht { from_ := x, to_ := y } hxy
  exact lt_irrefl _ (rank_lt_of_transGen (EdgeRel t) (indexOfId t) hstep a a hcyc)

/-- Instance of C3 at the root of the first entry; the chain relation is
inhabited there, `goal_0` reaching `qed_6`. -/
theorem edges_acyclic_witness :
    Relation.TransGen (EdgeRel copyAll_impossible_entry) "goal_0" "tactic_1" ∧
      (Relation.TransGen (EdgeRel copyAll_impossible_entry) "goal_0" "goal_0" → False) :=
  ⟨Relation.TransGen.single (by decide),
    edges_acyclic copyAll_impossible_entry (by decide) "goal_0"⟩

/-- C4: every entry, the term-mode entries `copyZ_possible` and
`copyX_possible` included, has exactly one node without an incoming edge, and
that node is the first node of the entry: `term_0` of type `app` for the two
term-mode entries and `goal_0` of type `goal` for the others. -/
theorem unique_root_is_first_node :
    ∀ t ∈ tacticFlowData.theorems,
      ∃ r, roots t = [r] ∧ t.nodes.head? = some r ∧
        (r.id, r.type_) =
          if t.name = "copyZ_possible" ∨ t.name = "copyX_possible"
          then ("term_0", "app") else ("goal_0", "goal") := by
  intro t ht
  simp only [tacticFlowData, List.mem_cons, List.mem_singleton, List.not_mem_nil,
    or_false] at ht
  rcases ht with rfl | rfl | rfl | rfl | rfl
  · exact ⟨_, by decide, rfl, by decide⟩
  · exact ⟨_, by decide, rfl, by decide⟩
  · exact ⟨_, by decide, rfl, by decide⟩
  · exact ⟨_, by decide, rfl, by decide⟩
  · exact ⟨_, by decide, rfl, by decide⟩

/-- Instance of C4 at the term-mode entry `copyZ_possible`. -/
theorem unique_root_is_first_node_witness :
    ∃ r, roots copyZ_possible_entry = [r] ∧
      copyZ_possible_entry.nodes.head? = some r ∧
      (r.id, r.type_) =
        if copyZ_possible_entry.name = "copyZ_possible" ∨
            copyZ_possible_entry.name = "copyX_possible"
        then ("term_0", "app") else ("goal_0", "goal") :=
  unique_root_is_first_node copyZ_possible_entry (by decide)

/-- C5: both components of every edge of `wolframProofsData` are integers in
`[0, items.length)`, and indexing `items` at either of them yields an item. -/
theorem dependency_edges_in_range :
    ∀ e ∈ wolframProofsData.edges,
      (0 ≤ e.1 ∧ e.1 < wolframProofsData.items.length) ∧
      (0 ≤ e.2 ∧ e.2 < wolframProofsData.items.length) ∧
      (itemAt wolframProofsData e.1).isSome = true ∧
      (itemAt wolframProofsData e.2).isSome = true := by
  decide

/-- Instance of C5 at the last edge `[9, 0]`. -/
theorem dependency_edges_in_range_witness :
    ((0 : Int) ≤ 9 ∧ (9 : Int) < wolframProofsData.items.length) ∧
      ((0 : Int) ≤ 0 ∧ (0 : Int) < wolframProofsData.items.length) ∧
      (itemAt wolframProofsData 9).isSome = true ∧
      (itemAt wolframProofsData 0).isSome = true :=
  dependency_edges_in_range (9, 0) (by decide)

/-- C6: no two entries of `tacticFlowData.theorems` share a name, and no two
items of `wolframProofsData.items` share a name. -/
theorem names_unique :
    (tacticFlowData.theorems.map TheoremEntry.name).Nodup ∧
      (wolframProofsData.items.map DependencyItem.name).Nodup := by
  decide

/-- C7: every node type used by a node is a key of `tacticFlowColors`, every
kind used by an item is a key of `kindShapes` and every family used by an item
is a key of `familyColors`; each of these lookups yields a value. -/
theorem used_values_have_lookup_entries :
    (∀ t ∈ tacticFlowData.theorems, ∀ n ∈ t.nodes,
        hasKey tacticFlowColors n.type_ = true ∧
        (lookupKey tacticFlowColors n.type_).isSome = true) ∧
      (∀ i ∈ wolframProofsData.items,
        hasKey kindShapes i.kind = true ∧
        (lookupKey kindShapes i.kind).isSome = true ∧
        hasKey familyColors i.family = true ∧
        (lookupKey familyColors i.family).isSome = true) := by
  decide

/-- C8: every node type is one of the eight listed types and every item kind
is one of the six listed kinds; the keys of `tacticFlowColors` are exactly the
eight types and the keys of `kindShapes` are exactly the six kinds. -/
theorem enumerations_closed :
    (∀ t ∈ tacticFlowData.theorems, ∀ n ∈ t.nodes,
        n.type_ ∈ ["goal", "hypothesis", "tactic", "simp_trace", "calc_step",
          "qed", "app", "const"]) ∧
      (∀ i ∈ wolframProofsData.items,
        i.kind ∈ ["theorem", "lemma", "def", "structure", "type", "aux"]) ∧
      (∀ k : String, hasKey tacticFlowColors k = true ↔
        k ∈ ["goal", "hypothesis", "tactic", "simp_trace", "calc_step",
          "qed", "app", "const"]) ∧
      (∀ k : String, hasKey kindShapes k = true ↔
        k ∈ ["theorem", "lemma", "def", "structure", "type", "aux"]) ∧
      (tacticFlowColors.map Prod.fst).Nodup ∧ (kindShapes.map Prod.fst).Nodup := by
  refine ⟨by decide, by decide, fun k => ?_, fun k => ?_, by decide, by decide⟩
  · simp [hasKey, tacticFlowColors]
  · simp [hasKey, kindShapes]

/-- C9: the edges of `wolframProofsData` are exactly the pairs `[i, 0]` for
`i = 1, ..., items.length - 1` in increasing order; every destination is item
0, which is `copyAll_impossible` of kind `theorem`; every other item is the
source of exactly one edge and item 0 is the source of none. -/
theorem dependency_edges_to_main_theorem :
    wolframProofsData.edges =
        (List.range' 1 (wolframProofsData.items.length - 1)).map
          (fun i => ((i : Int), (0 : Int))) ∧
      (∀ e ∈ wolframProofsData.edges, e.2 = 0) ∧
      (itemAt wolframProofsData 0).map (fun i => (i.name, i.kind)) =
        some ("copyAll_impossible", "theorem") ∧
      (∀ i : Nat, 1 ≤ i → i < wolframProofsData.items.length →
        (wolframProofsData.edges.filter (fun e => e.1 = (i : Int))).length = 1) ∧
      (∀ e ∈ wolframProofsData.edges, e.1 ≠ 0) := by
  refine ⟨by decide, by decide, by decide, ?_, by decide⟩
  intro i h1 h2
  have h3 : i < 10 := h2
  interval_cases i <;> decide

/-- C10: in every entry every depth is a non-negative integer, the one node
without an incoming edge has depth 0, and along every edge the depth does not
decrease and rises by at most one. -/
theorem depth_consistent_with_edges :
    ∀ t ∈ tacticFlowData.theorems,
      (∀ n ∈ t.nodes, 0 ≤ n.depth) ∧
      (∃ r, roots t = [r] ∧ r.depth = 0) ∧
      (∀ e ∈ t.edges, ∃ df dt, depthOf t e.from_ = some df ∧
        depthOf t e.to_ = some dt ∧ df ≤ dt ∧ dt ≤ df + 1) := by
  intro t ht
  refine ⟨?_, ?_, ?_⟩
  · revert t; decide
  · have h : ∀ u ∈ tacticFlowData.theorems,
        (roots u).length = 1 ∧ ∀ r ∈ roots u, r.depth = 0 := by
      decide
    obtain ⟨hlen, hzero⟩ := h t ht
    obtain ⟨r, hr⟩ := List.length_eq_one.1 hlen
    exact ⟨r, hr, hzero r (by simp [hr])⟩
  · have h : ∀ u ∈ tacticFlowData.theorems, ∀ e ∈ u.edges,
        (depthOf u e.from_).isSome = true ∧ (depthOf u e.to_).isSome = true ∧
        (depthOf u e.from_).getD 0 ≤ (depthOf u e.to_).getD 0 ∧
        (depthOf u e.to_).getD 0 ≤ (depthOf u e.from_).getD 0 + 1 := by
      decide
    intro e he
    obtain ⟨h1, h2, h3, h4⟩ := h t ht e he
    obtain ⟨df, hdf⟩ := Option.isSome_iff_exists.1 h1
    obtain ⟨dt, hdt⟩ := Option.isSome_iff_exists.1 h2
    rw [hdf, hdt] at h3 h4
    exact ⟨df, dt, hdf, hdt, h3, h4⟩

/-- Instance of C10 at the entry `not_implements_copyAll`, whose edge
`tactic_4 → hyp_9` keeps the depth at 3. -/
theorem depth_consistent_with_edges_witness :
    (∀ n ∈ not_implements_copyAll_entry.nodes, 0 ≤ n.depth) ∧
      (∃ r, roots not_implements_copyAll_entry = [r] ∧ r.depth = 0) ∧
      (∀ e ∈ not_implements_copyAll_entry.edges, ∃ df dt,
        depthOf not_implements_copyAll_entry e.from_ = some df ∧
        depthOf not_implements_copyAll_entry e.to_ = some dt ∧
        df ≤ dt ∧ dt ≤ df + 1) :=
  depth_consistent_with_edges not_implements_copyAll_entry (by decide)

end ProofVisuals
